import Mathlib

/-!
Shallow embedding of `homework.py`: a fitness-tracker module computing
distance, mean speed and spent calories for three workout variants
(`Running`, `SportsWalking`, `Swimming`), a dispatcher `read_package`
mapping a workout code to a constructor call, a formatter
(`InfoMessage.get_message`) and a driver `main`.

Numbers are modelled as rationals (the Python code computes with
floats over decimal literals; the spec states the formulas exactly,
so the idealisation to exact arithmetic is ℚ).  Python's `/` and `//`
raise `ZeroDivisionError` on a zero divisor, so division is modelled
as `Option`-valued (`qdiv`, `qfloordiv`) and every computed quantity
is an `Option ℚ`, `none` meaning an arithmetic fault.
-/

/-- Python `a / b`: `none` models `ZeroDivisionError`. -/
def qdiv (a b : ℚ) : Option ℚ :=
  if b = 0 then none else some (a / b)

/-- Python `a // b` on numbers: floor division, `none` models `ZeroDivisionError`. -/
def qfloordiv (a b : ℚ) : Option ℚ :=
  if b = 0 then none else some (⌊a / b⌋ : ℤ)

/-- Class attribute `Training.M_IN_KM = 1000`. -/
def Training.M_IN_KM : ℚ := 1000

/-- Class attribute `Training.LEN_STEP = 0.65` (inherited by `Running` and
`SportsWalking`; `Swimming` redeclares it as an instance field). -/
def Training.LEN_STEP : ℚ := 0.65

/-- Class attribute `Training.MIN_IN_H = 60`. -/
def Training.MIN_IN_H : ℚ := 60

/-- Dataclass `Running(Training)`: inherited fields `action`, `duration`,
`weight` plus the annotated-with-default fields `COEFF_TO_SPEED = 18` and
`SUBTRAHEND_CALORIES = 20` (annotated dataclass attributes are instance
fields, so positional construction may override them). -/
structure Running where
  action : ℚ
  duration : ℚ
  weight : ℚ
  COEFF_TO_SPEED : ℚ := 18
  SUBTRAHEND_CALORIES : ℚ := 20
deriving DecidableEq

/-- Dataclass `SportsWalking(Training)`: fields `action`, `duration`,
`weight`, `height` (all required; `COEFF_OF_WEIGHT` and
`COEFF_OF_ACCELERATION` are unannotated class attributes, not fields). -/
structure SportsWalking where
  action : ℚ
  duration : ℚ
  weight : ℚ
  height : ℚ
deriving DecidableEq

/-- Class attribute `SportsWalking.COEFF_OF_WEIGHT = 0.035`. -/
def SportsWalking.COEFF_OF_WEIGHT : ℚ := 0.035

/-- Class attribute `SportsWalking.COEFF_OF_ACCELERATION = 0.029`. -/
def SportsWalking.COEFF_OF_ACCELERATION : ℚ := 0.029

/-- Dataclass `Swimming(Training)`: fields `action`, `duration`, `weight`,
`length_pool`, `count_pool`, plus annotated-with-default fields
`LEN_STEP = 1.38`, `COEFF_SPEED = 1.1`, `COEFF_TO_WEIGHT = 2`. -/
structure Swimming where
  action : ℚ
  duration : ℚ
  weight : ℚ
  length_pool : ℚ
  count_pool : ℚ
  LEN_STEP : ℚ := 1.38
  COEFF_SPEED : ℚ := 1.1
  COEFF_TO_WEIGHT : ℚ := 2
deriving DecidableEq

/-- A constructed training record: one of the three concrete subclasses of
the abstract base class `Training`. -/
inductive Training where
  | running (r : Running)
  | walking (w : SportsWalking)
  | swimming (s : Swimming)
deriving DecidableEq

/-- The `duration` field, common to all variants. -/
def Training.duration : Training → ℚ
  | .running r => r.duration
  | .walking w => w.duration
  | .swimming s => s.duration

/-- The `weight` field, common to all variants. -/
def Training.weight : Training → ℚ
  | .running r => r.weight
  | .walking w => w.weight
  | .swimming s => s.weight

/-- The `action` field, common to all variants. -/
def Training.action : Training → ℚ
  | .running r => r.action
  | .walking w => w.action
  | .swimming s => s.action

/-- `type(self).__name__`, as used by `show_training_info`. -/
def Training.className : Training → String
  | .running _ => "Running"
  | .walking _ => "SportsWalking"
  | .swimming _ => "Swimming"

/-- `Training.get_distance`: `self.action * self.LEN_STEP / self.M_IN_KM`.
`Running` and `SportsWalking` inherit it with the class attribute
`LEN_STEP = 0.65`; for `Swimming` the lookup `self.LEN_STEP` finds the
instance field (default `1.38`). -/
def Training.get_distance : Training → Option ℚ
  | .running r => qdiv (r.action * Training.LEN_STEP) Training.M_IN_KM
  | .walking w => qdiv (w.action * Training.LEN_STEP) Training.M_IN_KM
  | .swimming s => qdiv (s.action * s.LEN_STEP) Training.M_IN_KM

/-- `Training.get_mean_speed`: `self.get_distance() / self.duration`;
overridden by `Swimming` as
`self.length_pool * self.count_pool / self.M_IN_KM / self.duration`. -/
def Training.get_mean_speed : Training → Option ℚ
  | .running r => do
      let dist ← Training.get_distance (.running r)
      qdiv dist r.duration
  | .walking w => do
      let dist ← Training.get_distance (.walking w)
      qdiv dist w.duration
  | .swimming s => do
      let x ← qdiv (s.length_pool * s.count_pool) Training.M_IN_KM
      qdiv x s.duration

/-- `get_spent_calories`, dispatched to the overriding subclass:
`Running`: `(COEFF_TO_SPEED * speed - SUBTRAHEND_CALORIES) * weight / M_IN_KM * duration * MIN_IN_H`;
`SportsWalking`: `(COEFF_OF_WEIGHT * weight + (speed ** 2 // height) * COEFF_OF_ACCELERATION * weight) * duration * MIN_IN_H`;
`Swimming`: `(speed + COEFF_SPEED) * COEFF_TO_WEIGHT * weight`. -/
def Training.get_spent_calories : Training → Option ℚ
  | .running r => do
      let speed ← Training.get_mean_speed (.running r)
      let x ← qdiv ((r.COEFF_TO_SPEED * speed - r.SUBTRAHEND_CALORIES) * r.weight)
        Training.M_IN_KM
      pure (x * r.duration * Training.MIN_IN_H)
  | .walking w => do
      let speed ← Training.get_mean_speed (.walking w)
      let fd ← qfloordiv (speed ^ 2) w.height
      pure ((SportsWalking.COEFF_OF_WEIGHT * w.weight
        + fd * SportsWalking.COEFF_OF_ACCELERATION * w.weight) * w.duration
        * Training.MIN_IN_H)
  | .swimming s => do
      let speed ← Training.get_mean_speed (.swimming s)
      pure ((speed + s.COEFF_SPEED) * s.COEFF_TO_WEIGHT * s.weight)

/-- Dataclass `InfoMessage`. -/
structure InfoMessage where
  training_type : String
  duration : ℚ
  distance : ℚ
  speed : ℚ
  calories : ℚ
deriving DecidableEq

/-- `Training.show_training_info`: builds the `InfoMessage` from
`type(self).__name__`, `self.duration` and the three computed quantities
(`none` when any of them faults). -/
def Training.show_training_info (t : Training) : Option InfoMessage := do
  let dist ← t.get_distance
  let speed ← t.get_mean_speed
  let cal ← t.get_spent_calories
  pure ⟨t.className, t.duration, dist, speed, cal⟩

/-- Round a rational to the nearest integer, ties to even — the rounding
used when Python renders a value with `:.3f` (after scaling by 1000). -/
def roundHalfEven (x : ℚ) : ℤ :=
  if x - ⌊x⌋ < 1 / 2 then ⌊x⌋
  else if x - ⌊x⌋ > 1 / 2 then ⌊x⌋ + 1
  else if ⌊x⌋ % 2 = 0 then ⌊x⌋ else ⌊x⌋ + 1

/-- The three fractional digits of a `:.3f` rendering: `m < 1000` is the
rounded fractional part scaled by 1000. -/
def frac3Digits (m : ℕ) : String :=
  ⟨[Nat.digitChar (m / 100 % 10), Nat.digitChar (m / 10 % 10),
    Nat.digitChar (m % 10)]⟩

/-- Python `format(q, \x27.3f\x27)` over the ℚ idealisation: sign, integer
part, a dot, then exactly three fractional digits. -/
def formatFixed3 (q : ℚ) : String :=
  let n : ℕ := (roundHalfEven (|q| * 1000)).toNat
  (if q < 0 then "-" else "") ++ toString (n / 1000) ++ "." ++ frac3Digits (n % 1000)

/-- `InfoMessage.get_message`: the fixed f-string template, every numeric
field rendered with `:.3f`. -/
def InfoMessage.get_message (m : InfoMessage) : String :=
  "Тип тренировки: " ++ m.training_type
    ++ "; Длительность: " ++ formatFixed3 m.duration
    ++ " ч.; Дистанция: " ++ formatFixed3 m.distance
    ++ " км; Ср. скорость: " ++ formatFixed3 m.speed
    ++ " км/ч; Потрачено ккал: " ++ formatFixed3 m.calories ++ "."

/-- Errors `read_package` and `main` can raise: `KeyError` (with its
message), `TypeError` (wrong positional-argument count in a constructor
call) and `AttributeError`. -/
inductive PyError where
  | keyError (msg : String)
  | typeError
  | attributeError
deriving DecidableEq

/-- `Swimming(*data)`: positional dataclass construction accepts 5 to 8
arguments (three trailing fields have defaults); otherwise `TypeError`. -/
def Swimming.construct : List ℚ → Except PyError Training
  | [a, d, w, l, c] => .ok (.swimming ⟨a, d, w, l, c, 1.38, 1.1, 2⟩)
  | [a, d, w, l, c, ls] => .ok (.swimming ⟨a, d, w, l, c, ls, 1.1, 2⟩)
  | [a, d, w, l, c, ls, cs] => .ok (.swimming ⟨a, d, w, l, c, ls, cs, 2⟩)
  | [a, d, w, l, c, ls, cs, cw] => .ok (.swimming ⟨a, d, w, l, c, ls, cs, cw⟩)
  | _ => .error .typeError

/-- `Running(*data)`: accepts 3 to 5 positional arguments (the two
coefficient fields have defaults); otherwise `TypeError`. -/
def Running.construct : List ℚ → Except PyError Training
  | [a, d, w] => .ok (.running ⟨a, d, w, 18, 20⟩)
  | [a, d, w, c1] => .ok (.running ⟨a, d, w, c1, 20⟩)
  | [a, d, w, c1, c2] => .ok (.running ⟨a, d, w, c1, c2⟩)
  | _ => .error .typeError

/-- `SportsWalking(*data)`: accepts exactly 4 positional arguments;
otherwise `TypeError`. -/
def SportsWalking.construct : List ℚ → Except PyError Training
  | [a, d, w, h] => .ok (.walking ⟨a, d, w, h⟩)
  | _ => .error .typeError

/-- `read_package`: looks `workout_type` up in `CONFORMITY_TO_CLASSES`
(keys `"SWM"`, `"RUN"`, `"WLK"`) and calls the class on the unpacked
readings; on a miss raises `KeyError` whose argument is the literal
(non-f) string `"f\x27Неизвестный код \x7bworkout_type\x7d\x27"`. -/
def read_package (workout_type : String) (data : List ℚ) : Except PyError Training :=
  if workout_type = "SWM" then Swimming.construct data
  else if workout_type = "RUN" then Running.construct data
  else if workout_type = "WLK" then SportsWalking.construct data
  else .error (.keyError "f\x27Неизвестный код \x7bworkout_type\x7d\x27")

/-- `main(training)`: `if training is None: print(training.show_training_info().get_message())`
then unconditionally `raise AttributeError`.  The result is the list of
printed lines on normal return, or the raised error.  When the guard is
taken, `training` is `None` and the attribute access
`training.show_training_info` itself raises `AttributeError`; when it is
not taken, nothing is printed and the `raise` fires.  Either way `main`
raises `AttributeError` having printed nothing. -/
def Homework.main (training : Option Training) : Except PyError (List String) :=
  match training with
  | none => .error .attributeError
  | some _ => .error .attributeError

/-- Unfolding set for evaluating the computed quantities. -/
theorem qdiv_of_ne (a b : ℚ) (hb : b ≠ 0) : qdiv a b = some (a / b) := by
  simp [qdiv, hb]

theorem qfloordiv_of_ne (a b : ℚ) (hb : b ≠ 0) :
    qfloordiv a b = some (⌊a / b⌋ : ℤ) := by
  simp [qfloordiv, hb]

theorem running_distance (r : Running) :
    Training.get_distance (.running r) = some (r.action * 0.65 / 1000) := by
  norm_num [Training.get_distance, qdiv, Training.LEN_STEP, Training.M_IN_KM]

theorem walking_distance (w : SportsWalking) :
    Training.get_distance (.walking w) = some (w.action * 0.65 / 1000) := by
  norm_num [Training.get_distance, qdiv, Training.LEN_STEP, Training.M_IN_KM]

theorem swimming_distance (s : Swimming) :
    Training.get_distance (.swimming s) = some (s.action * s.LEN_STEP / 1000) := by
  norm_num [Training.get_distance, qdiv, Training.M_IN_KM]

theorem running_mean_speed (r : Running) (hd : r.duration ≠ 0) :
    Training.get_mean_speed (.running r)
      = some (r.action * 0.65 / 1000 / r.duration) := by
  rw [Training.get_mean_speed, running_distance]
  simp [qdiv, hd]

theorem walking_mean_speed (w : SportsWalking) (hd : w.duration ≠ 0) :
    Training.get_mean_speed (.walking w)
      = some (w.action * 0.65 / 1000 / w.duration) := by
  rw [Training.get_mean_speed, walking_distance]
  simp [qdiv, hd]

theorem swimming_mean_speed (s : Swimming) (hd : s.duration ≠ 0) :
    Training.get_mean_speed (.swimming s)
      = some (s.length_pool * s.count_pool / 1000 / s.duration) := by
  norm_num [Training.get_mean_speed, qdiv, Training.M_IN_KM, hd]

theorem running_calories (r : Running) (hd : r.duration ≠ 0) :
    Training.get_spent_calories (.running r)
      = some ((r.COEFF_TO_SPEED * (r.action * 0.65 / 1000 / r.duration)
          - r.SUBTRAHEND_CALORIES) * r.weight / 1000 * r.duration * 60) := by
  rw [Training.get_spent_calories, running_mean_speed r hd]
  norm_num [qdiv, Training.M_IN_KM, Training.MIN_IN_H]

theorem walking_calories (w : SportsWalking) (hd : w.duration ≠ 0)
    (hh : w.height ≠ 0) :
    Training.get_spent_calories (.walking w)
      = some ((0.035 * w.weight
          + (⌊(w.action * 0.65 / 1000 / w.duration) ^ 2 / w.height⌋ : ℤ)
            * 0.029 * w.weight) * w.duration * 60) := by
  rw [Training.get_spent_calories, walking_mean_speed w hd]
  norm_num [qfloordiv, hh, SportsWalking.COEFF_OF_WEIGHT,
    SportsWalking.COEFF_OF_ACCELERATION, Training.MIN_IN_H]

theorem swimming_calories (s : Swimming) (hd : s.duration ≠ 0) :
    Training.get_spent_calories (.swimming s)
      = some ((s.length_pool * s.count_pool / 1000 / s.duration + s.COEFF_SPEED)
          * s.COEFF_TO_WEIGHT * s.weight) := by
  rw [Training.get_spent_calories, swimming_mean_speed s hd]
  norm_num

/-- C1: the Running calorie formula as the spec states it holds, but the
spec's scenario value 701.25 is wrong: the formula at
`build("RUN", [15000, 1, 75])` gives 699.75. -/
theorem C1_running_counterexample :
    read_package "RUN" [15000, 1, 75] = .ok (.running ⟨15000, 1, 75, 18, 20⟩)
    ∧ Training.get_spent_calories (.running ⟨15000, 1, 75, 18, 20⟩) = some 699.75
    ∧ (699.75 : ℚ) ≠ 701.25 := by
  refine ⟨rfl, ?_, by norm_num⟩
  rw [running_calories _ (by norm_num)]
  norm_num

/-- C1 (amended): for every Running record built from three readings with
nonzero duration, `spent_calories()` equals
`(18 * mean_speed() - 20) * weight / 1000 * duration * 60` with
`mean_speed() = distance() / duration` and
`distance() = action * 0.65 / 1000`; the scenario
`build("RUN", [15000, 1, 75])` yields distance 9.75 km, mean speed
9.75 km/h and calories 699.75 (not 701.25). -/
theorem C1_running_calories (a d w : ℚ) (hd : d ≠ 0) :
    (∃ t, read_package "RUN" [a, d, w] = .ok t
      ∧ Training.get_distance t = some (a * 0.65 / 1000)
      ∧ Training.get_mean_speed t = some (a * 0.65 / 1000 / d)
      ∧ Training.get_spent_calories t
          = some ((18 * (a * 0.65 / 1000 / d) - 20) * w / 1000 * d * 60))
    ∧ (∃ t, read_package "RUN" [15000, 1, 75] = .ok t
      ∧ Training.get_distance t = some 9.75
      ∧ Training.get_mean_speed t = some 9.75
      ∧ Training.get_spent_calories t = some 699.75) := by
  constructor
  · refine ⟨.running ⟨a, d, w, 18, 20⟩, rfl, running_distance _, running_mean_speed _ hd, ?_⟩
    rw [running_calories _ hd]
  · refine ⟨.running ⟨15000, 1, 75, 18, 20⟩, rfl, ?_, ?_, ?_⟩
    · rw [running_distance]; norm_num
    · rw [running_mean_speed _ (by norm_num)]; norm_num
    · rw [running_calories _ (by norm_num)]; norm_num

/-- C1 witness: the amended theorem applied at the scenario input. -/
theorem C1_running_calories_witness :
    (∃ t, read_package "RUN" [(15000 : ℚ), 1, 75] = .ok t
      ∧ Training.get_distance t = some ((15000 : ℚ) * 0.65 / 1000)
      ∧ Training.get_mean_speed t = some ((15000 : ℚ) * 0.65 / 1000 / 1)
      ∧ Training.get_spent_calories t
          = some ((18 * ((15000 : ℚ) * 0.65 / 1000 / 1) - 20) * 75 / 1000 * 1 * 60)) :=
  (C1_running_calories 15000 1 75 (by norm_num)).1

/-- C2: for every Swimming record built from five readings with nonzero
duration, `mean_speed()` equals
`length_pool * count_pool / 1000 / duration` (no dependence on
`distance()`), `distance()` uses step length 1.38, and
`spent_calories()` equals `(mean_speed() + 1.1) * 2 * weight`; the
scenario `build("SWM", [720, 1, 80, 25, 40])` yields mean speed 1.0 and
calories 336.0. -/
theorem C2_swimming (a d w l c : ℚ) (hd : d ≠ 0) :
    (∃ t, read_package "SWM" [a, d, w, l, c] = .ok t
      ∧ Training.get_mean_speed t = some (l * c / 1000 / d)
      ∧ Training.get_distance t = some (a * 1.38 / 1000)
      ∧ Training.get_spent_calories t
          = some ((l * c / 1000 / d + 1.1) * 2 * w))
    ∧ (∃ t, read_package "SWM" [720, 1, 80, 25, 40] = .ok t
      ∧ Training.get_mean_speed t = some 1
      ∧ Training.get_spent_calories t = some 336) := by
  constructor
  · refine ⟨.swimming ⟨a, d, w, l, c, 1.38, 1.1, 2⟩, rfl,
      swimming_mean_speed _ hd, ?_, ?_⟩
    · rw [swimming_distance]
    · rw [swimming_calories _ hd]
  · refine ⟨.swimming ⟨720, 1, 80, 25, 40, 1.38, 1.1, 2⟩, rfl, ?_, ?_⟩
    · rw [swimming_mean_speed _ (by norm_num)]; norm_num
    · rw [swimming_calories _ (by norm_num)]; norm_num

/-- C2 witness: the theorem applied at the scenario input. -/
theorem C2_swimming_witness :
    (∃ t, read_package "SWM" [(720 : ℚ), 1, 80, 25, 40] = .ok t
      ∧ Training.get_mean_speed t = some ((25 : ℚ) * 40 / 1000 / 1)
      ∧ Training.get_distance t = some ((720 : ℚ) * 1.38 / 1000)
      ∧ Training.get_spent_calories t
          = some (((25 : ℚ) * 40 / 1000 / 1 + 1.1) * 2 * 80)) :=
  (C2_swimming 720 1 80 25 40 (by norm_num)).1

/-- C3: for every SportsWalking record with nonzero duration and height,
`spent_calories()` equals
`(0.035 * weight + floor(mean_speed() ^ 2 / height) * 0.029 * weight) * duration * 60`
with true floor division; the scenario `build("WLK", [9000, 1, 75, 180])`
yields distance 5.85 km, mean speed 5.85 km/h, calories 157.5 via the
floor (the plain-division value would differ). -/
theorem C3_walking (a d w h : ℚ) (hd : d ≠ 0) (hh : h ≠ 0) :
    (∃ t, read_package "WLK" [a, d, w, h] = .ok t
      ∧ Training.get_spent_calories t
          = some ((0.035 * w
              + (⌊(a * 0.65 / 1000 / d) ^ 2 / h⌋ : ℤ) * 0.029 * w) * d * 60))
    ∧ (∃ t, read_package "WLK" [9000, 1, 75, 180] = .ok t
      ∧ Training.get_distance t = some 5.85
      ∧ Training.get_mean_speed t = some 5.85
      ∧ Training.get_spent_calories t = some 157.5)
    ∧ (157.5 : ℚ) ≠ (0.035 * 75 + (5.85 : ℚ) ^ 2 / 180 * 0.029 * 75) * 1 * 60 := by
  refine ⟨?_, ?_, by norm_num⟩
  · exact ⟨.walking ⟨a, d, w, h⟩, rfl, walking_calories _ hd hh⟩
  · refine ⟨.walking ⟨9000, 1, 75, 180⟩, rfl, ?_, ?_, ?_⟩
    · rw [walking_distance]; norm_num
    · rw [walking_mean_speed _ (by norm_num)]; norm_num
    · rw [walking_calories _ (by norm_num) (by norm_num)]
      norm_num

/-- C3 witness: the theorem applied at the scenario input. -/
theorem C3_walking_witness :
    (∃ t, read_package "WLK" [(9000 : ℚ), 1, 75, 180] = .ok t
      ∧ Training.get_spent_calories t
          = some (((0.035 : ℚ) * 75
              + ((⌊((9000 : ℚ) * 0.65 / 1000 / 1) ^ 2 / 180⌋ : ℤ) : ℚ) * 0.029 * 75) * 1 * 60)) :=
  (C3_walking 9000 1 75 180 (by norm_num) (by norm_num)).1

theorem read_package_run (data : List ℚ) :
    read_package "RUN" data = Running.construct data := rfl

theorem read_package_swm (data : List ℚ) :
    read_package "SWM" data = Swimming.construct data := rfl

theorem read_package_wlk (data : List ℚ) :
    read_package "WLK" data = SportsWalking.construct data := rfl

theorem running_construct_len (data : List ℚ) :
    ((∃ t, Running.construct data = .ok t) ↔ 3 ≤ data.length ∧ data.length ≤ 5)
    ∧ (Running.construct data = .error .typeError
        ↔ ¬ (3 ≤ data.length ∧ data.length ≤ 5)) := by
  rcases data with _ | ⟨a, _ | ⟨b, _ | ⟨c, _ | ⟨e, _ | ⟨f, _ | ⟨g, rest⟩⟩⟩⟩⟩⟩ <;>
    simp [Running.construct] <;> omega

theorem swimming_construct_len (data : List ℚ) :
    ((∃ t, Swimming.construct data = .ok t) ↔ 5 ≤ data.length ∧ data.length ≤ 8)
    ∧ (Swimming.construct data = .error .typeError
        ↔ ¬ (5 ≤ data.length ∧ data.length ≤ 8)) := by
  rcases data with
    _ | ⟨a, _ | ⟨b, _ | ⟨c, _ | ⟨e, _ | ⟨f, _ | ⟨g, _ | ⟨i, _ | ⟨j, _ | ⟨k, rest⟩⟩⟩⟩⟩⟩⟩⟩⟩ <;>
    simp [Swimming.construct] <;> omega

theorem walking_construct_len (data : List ℚ) :
    ((∃ t, SportsWalking.construct data = .ok t) ↔ data.length = 4)
    ∧ (SportsWalking.construct data = .error .typeError ↔ data.length ≠ 4) := by
  rcases data with _ | ⟨a, _ | ⟨b, _ | ⟨c, _ | ⟨e, _ | ⟨f, rest⟩⟩⟩⟩⟩ <;>
    simp [SportsWalking.construct] <;> omega

/-- C4 counterexample: `read_package("RUN", [1, 2, 3, 4])` succeeds even
though 4 readings is not Running's expected field count 3 (the fourth
reading lands in the defaulted coefficient field), so construction does
not fail whenever the reading count differs from 3. -/
theorem C4_arity_counterexample :
    read_package "RUN" [1, 2, 3, 4] = .ok (.running ⟨1, 2, 3, 4, 20⟩)
    ∧ (4 : ℕ) ≠ 3 := ⟨rfl, by norm_num⟩

/-- C4 (amended): with a recognized code, construction fails (with the
positional-argument-count `TypeError`) exactly when the number of
readings is outside the variant's accepted range — 3 to 5 for Running
and 5 to 8 for Swimming (their trailing coefficient fields have
defaults), exactly 4 for WalkingWithWeights — and succeeds otherwise;
in particular `build("RUN", [1, 2])` fails. -/
theorem C4_arity (data : List ℚ) :
    ((∃ t, read_package "RUN" data = .ok t)
        ↔ 3 ≤ data.length ∧ data.length ≤ 5)
    ∧ (read_package "RUN" data = .error .typeError
        ↔ ¬ (3 ≤ data.length ∧ data.length ≤ 5))
    ∧ ((∃ t, read_package "SWM" data = .ok t)
        ↔ 5 ≤ data.length ∧ data.length ≤ 8)
    ∧ (read_package "SWM" data = .error .typeError
        ↔ ¬ (5 ≤ data.length ∧ data.length ≤ 8))
    ∧ ((∃ t, read_package "WLK" data = .ok t) ↔ data.length = 4)
    ∧ (read_package "WLK" data = .error .typeError ↔ data.length ≠ 4)
    ∧ read_package "RUN" [1, 2] = .error .typeError := by
  rw [read_package_run, read_package_swm, read_package_wlk]
  exact ⟨(running_construct_len data).1, (running_construct_len data).2,
    (swimming_construct_len data).1, (swimming_construct_len data).2,
    (walking_construct_len data).1, (walking_construct_len data).2, rfl⟩

/-- C5: an unrecognized code (matching is case-sensitive, so even
`"run"`) raises `KeyError`, but its message is the literal string
`f\x27Неизвестный код \x7bworkout_type\x7d\x27` — the intended f-string
lost its `f` prefix — which contains no character of the offending code
`"XYZ"` nor of any valid code, so the message names neither. -/
theorem C5_unknown_code :
    read_package "XYZ" [1, 2, 3]
      = .error (.keyError "f\x27Неизвестный код \x7bworkout_type\x7d\x27")
    ∧ read_package "run" [1, 2, 3]
      = .error (.keyError "f\x27Неизвестный код \x7bworkout_type\x7d\x27")
    ∧ (∀ ch ∈ ['X', 'Y', 'Z', 'S', 'W', 'M', 'R', 'U', 'N', 'L', 'K'],
        ch ∉ "f\x27Неизвестный код \x7bworkout_type\x7d\x27".toList) :=
  ⟨rfl, rfl, by decide⟩

/-- C6: for each valid code with its matching readings and nonzero
duration, height and pool length, `read_package` then
`show_training_info` raises no fault; with zero duration, as in
`build("RUN", [100, 0, 75])`, `get_mean_speed` hits a division by zero
(modelled as `none`), which nothing catches. -/
theorem C6_no_fault (a d w h l c : ℚ) (hd : d ≠ 0) (hh : h ≠ 0) (hl : l ≠ 0) :
    (∃ t, read_package "RUN" [a, d, w] = .ok t
      ∧ (Training.show_training_info t).isSome = true)
    ∧ (∃ t, read_package "WLK" [a, d, w, h] = .ok t
      ∧ (Training.show_training_info t).isSome = true)
    ∧ (∃ t, read_package "SWM" [a, d, w, l, c] = .ok t
      ∧ (Training.show_training_info t).isSome = true)
    ∧ (∃ t, read_package "RUN" [100, 0, 75] = .ok t
      ∧ Training.get_mean_speed t = none) := by
  refine ⟨⟨.running ⟨a, d, w, 18, 20⟩, rfl, ?_⟩,
    ⟨.walking ⟨a, d, w, h⟩, rfl, ?_⟩,
    ⟨.swimming ⟨a, d, w, l, c, 1.38, 1.1, 2⟩, rfl, ?_⟩,
    ⟨.running ⟨100, 0, 75, 18, 20⟩, rfl, ?_⟩⟩
  · rw [Training.show_training_info, running_distance,
      running_mean_speed _ hd, running_calories _ hd]
    rfl
  · rw [Training.show_training_info, walking_distance,
      walking_mean_speed _ hd, walking_calories _ hd hh]
    rfl
  · rw [Training.show_training_info, swimming_distance,
      swimming_mean_speed _ hd, swimming_calories _ hd]
    rfl
  · rw [Training.get_mean_speed, running_distance]
    simp [qdiv]

/-- C6 witness: the theorem applied at the demo inputs. -/
theorem C6_no_fault_witness :
    (∃ t, read_package "RUN" [(100 : ℚ), 1, 75] = .ok t
      ∧ (Training.show_training_info t).isSome = true)
    ∧ (∃ t, read_package "WLK" [(100 : ℚ), 1, 75, 180] = .ok t
      ∧ (Training.show_training_info t).isSome = true)
    ∧ (∃ t, read_package "SWM" [(100 : ℚ), 1, 75, 25, 40] = .ok t
      ∧ (Training.show_training_info t).isSome = true)
    ∧ (∃ t, read_package "RUN" [(100 : ℚ), 0, 75] = .ok t
      ∧ Training.get_mean_speed t = none) :=
  C6_no_fault 100 1 75 180 25 40 (by norm_num) (by norm_num) (by norm_num)

/-- C7: every `InfoMessage` produced by `show_training_info` carries the
variant's class name as its type field, the record's duration, and
renders through `get_message` as exactly the fixed template, each
numeric field formatted by `formatFixed3` — which always emits a dot
followed by exactly three fractional digits. -/
theorem C7_formatter (t : Training) (m : InfoMessage)
    (h : Training.show_training_info t = some m) :
    m.training_type = t.className
    ∧ m.duration = t.duration
    ∧ m.get_message = "Тип тренировки: " ++ t.className
        ++ "; Длительность: " ++ formatFixed3 m.duration
        ++ " ч.; Дистанция: " ++ formatFixed3 m.distance
        ++ " км; Ср. скорость: " ++ formatFixed3 m.speed
        ++ " км/ч; Потрачено ккал: " ++ formatFixed3 m.calories ++ "."
    ∧ (∀ q : ℚ, ∃ pre, formatFixed3 q
        = pre ++ "." ++ frac3Digits ((roundHalfEven (|q| * 1000)).toNat % 1000)
        ∧ (frac3Digits ((roundHalfEven (|q| * 1000)).toNat % 1000)).length = 3) := by
  simp only [Training.show_training_info, Option.bind_eq_bind,
    Option.bind_eq_some, Option.some.injEq, pure] at h
  obtain ⟨dist, hdist, speed, hspeed, cal, hcal, hm⟩ := h
  subst hm
  refine ⟨rfl, rfl, rfl, fun q => ⟨(if q < 0 then "-" else "")
    ++ toString ((roundHalfEven (|q| * 1000)).toNat / 1000), rfl, rfl⟩⟩

/-- C7 witness: the theorem applied to the swimming demo record and its
computed summary. -/
theorem C7_formatter_witness :
    (⟨"Swimming", 1, 0.9936, 1, 336⟩ : InfoMessage).training_type
      = Training.className (.swimming ⟨720, 1, 80, 25, 40, 1.38, 1.1, 2⟩) :=
  (C7_formatter (.swimming ⟨720, 1, 80, 25, 40, 1.38, 1.1, 2⟩)
    ⟨"Swimming", 1, 0.9936, 1, 336⟩ (by
      rw [Training.show_training_info, swimming_distance,
        swimming_mean_speed _ (by norm_num), swimming_calories _ (by norm_num)]
      norm_num [Training.className, Training.duration])).1

/-- C8: the driver `main` prints nothing and raises `AttributeError` on
every input — for a non-`None` record the `if training is None` guard is
never taken and the unconditional `raise` fires, and for `None` the
guard's own body crashes on the attribute access. -/
theorem C8_main_crashes :
    (∀ t : Training, Homework.main (some t) = .error .attributeError)
    ∧ Homework.main none = .error .attributeError :=
  ⟨fun _ => rfl, rfl⟩

/-- C9: for Running and SportsWalking records, `distance()` is linear in
`action`: scaling `action` by an integer `k` scales the computed
distance by `k`. -/
theorem C9_distance_proportional (k : ℤ) (r : Running) (wk : SportsWalking) :
    Training.get_distance (.running ⟨(k : ℚ) * r.action, r.duration, r.weight,
        r.COEFF_TO_SPEED, r.SUBTRAHEND_CALORIES⟩)
      = (Training.get_distance (.running r)).map (fun x => (k : ℚ) * x)
    ∧ Training.get_distance (.walking ⟨(k : ℚ) * wk.action, wk.duration,
        wk.weight, wk.height⟩)
      = (Training.get_distance (.walking wk)).map (fun x => (k : ℚ) * x) := by
  rw [running_distance, running_distance, walking_distance, walking_distance]
  constructor <;> · simp only [Option.map_some', Option.some.injEq]; ring

/-- C10: because the coefficient attributes are annotated dataclass
fields with defaults, `read_package("RUN", ...)` accepts 3, 4 or 5
readings, the extras overriding `COEFF_TO_SPEED = 18` and
`SUBTRAHEND_CALORIES = 20` (which the calorie formula then uses), and
`read_package("SWM", ...)` accepts 5 to 8 readings, the extras
overriding `LEN_STEP = 1.38` (used by `distance()`), `COEFF_SPEED` and
`COEFF_TO_WEIGHT`. -/
theorem C10_extra_readings (a d w c1 c2 l c ls cs cw : ℚ) (hd : d ≠ 0) :
    read_package "RUN" [a, d, w] = .ok (.running ⟨a, d, w, 18, 20⟩)
    ∧ read_package "RUN" [a, d, w, c1] = .ok (.running ⟨a, d, w, c1, 20⟩)
    ∧ read_package "RUN" [a, d, w, c1, c2] = .ok (.running ⟨a, d, w, c1, c2⟩)
    ∧ read_package "SWM" [a, d, w, l, c]
        = .ok (.swimming ⟨a, d, w, l, c, 1.38, 1.1, 2⟩)
    ∧ read_package "SWM" [a, d, w, l, c, ls]
        = .ok (.swimming ⟨a, d, w, l, c, ls, 1.1, 2⟩)
    ∧ read_package "SWM" [a, d, w, l, c, ls, cs]
        = .ok (.swimming ⟨a, d, w, l, c, ls, cs, 2⟩)
    ∧ read_package "SWM" [a, d, w, l, c, ls, cs, cw]
        = .ok (.swimming ⟨a, d, w, l, c, ls, cs, cw⟩)
    ∧ Training.get_spent_calories (.running ⟨a, d, w, c1, c2⟩)
        = some ((c1 * (a * 0.65 / 1000 / d) - c2) * w / 1000 * d * 60)
    ∧ Training.get_distance (.swimming ⟨a, d, w, l, c, ls, cs, cw⟩)
        = some (a * ls / 1000) := by
  refine ⟨rfl, rfl, rfl, rfl, rfl, rfl, rfl, ?_, swimming_distance _⟩
  rw [running_calories _ hd]

/-- C10 witness: the theorem applied at concrete readings. -/
theorem C10_extra_readings_witness :
    read_package "RUN" [(720 : ℚ), 1, 80] = .ok (.running ⟨720, 1, 80, 18, 20⟩) :=
  (C10_extra_readings 720 1 80 7 8 9 10 11 12 13 (by norm_num)).1
